import Mathlib

/-!
Shallow embedding of the Omnik session orchestrator's text pipeline
(`src/bot/session_manager.py`, `src/bot/response_classifier.py`,
`src/bot/prompt_parser.py`), together with the registry operations the
claims refer to.  Text is modelled as `List Char` (one entry per Unicode
code point, matching Python `str` indexing and `len`).  The Python regular
expressions used by the code are anchored at line starts and are
deterministic on their character classes, so they are embedded as
deterministic per-line scanners; the reasoning for that equivalence is
recorded in the doc comments of the corresponding definitions.
-/

namespace Omnik

/-- Python `\s` whitespace (the ASCII whitespace characters; the texts the
repository handles are ASCII plus box-drawing/emoji symbols, none of which
are whitespace). -/
def isPySpace (c : Char) : Bool :=
  c = ' ' || c = '\t' || c = '\n' || c = '\r' || c = '\x0b' || c = '\x0c'

/-- Python `\w` word character, for the ASCII alphabet the classifier
patterns are applied to: letters, digits and underscore. -/
def isWordChar (c : Char) : Bool :=
  c.isAlphanum || c = '_'

/-- Python `\d` digit. -/
def isDigitChar (c : Char) : Bool :=
  c.isDigit

/-- Lowercasing: `toLowerList` models Python `str.lower` on the ASCII range (the only
characters the keyword tables contain letters from). -/
def toLowerList (cs : List Char) : List Char :=
  cs.map Char.toLower

/-- Prefix test: `startsWith w cs` holds when `w` is an initial segment of `cs`. -/
def startsWith : List Char → List Char → Bool
  | [], _ => true
  | _ :: _, [] => false
  | w :: ws, c :: cs => w = c && startsWith ws cs

/-- Python substring containment `needle in hay`. -/
def containsSub (needle : List Char) : List Char → Bool
  | [] => startsWith needle []
  | c :: rest => startsWith needle (c :: rest) || containsSub needle rest

/-- Python `str.strip()`: remove leading and trailing whitespace. -/
def stripChars (cs : List Char) : List Char :=
  ((cs.dropWhile isPySpace).reverse.dropWhile isPySpace).reverse

/-- Line splitting, `cs.split` on newline: split on newline, keeping empty segments (Python
semantics: `"a\n".split('\n') = ["a", ""]`). -/
def splitLines : List Char → List (List Char)
  | [] => [[]]
  | c :: rest =>
    if c = '\n' then [] :: splitLines rest
    else
      match splitLines rest with
      | [] => [[c]]
      | l :: ls => (c :: l) :: ls

/-! ### The ANSI escape pattern (`ANSI_ESCAPE`, session_manager.py lines 21-36)

ESC followed by either a C1 final byte (class `0x40`-`0x5A`, `0x5C`-`0x5F`)
or by a CSI sequence (`0x5B`, parameter bytes `0x30`-`0x3F`, intermediate
bytes `0x20`-`0x2F`, final byte `0x40`-`0x7E`); or a bare CSI sequence
(`0x5B`, one or more of digits and semicolon, an ASCII letter).

All character classes of the pattern are pairwise disjoint from the bytes
that follow them, so the greedy scan never backtracks and the leftmost
match at a position is computed by maximal munch. -/

/-- The single final byte of a 7-bit C1 escape,
`0x40`–`0x5A` or `0x5C`–`0x5F` (note `0x5B` is excluded). -/
def isC1Final (c : Char) : Bool :=
  ('@' ≤ c && c ≤ 'Z') || ('\\' ≤ c && c ≤ '_')

/-- CSI parameter byte (`0x30`–`0x3F`). -/
def isCsiParam (c : Char) : Bool :=
  '0' ≤ c && c ≤ '?'

/-- CSI intermediate byte (`0x20`–`0x2F`). -/
def isCsiInter (c : Char) : Bool :=
  ' ' ≤ c && c ≤ '/'

/-- CSI final byte (`0x40`–`0x7E`). -/
def isCsiFinal (c : Char) : Bool :=
  '@' ≤ c && c ≤ '~'

/-- Digit or semicolon, the body of a bare CSI sequence. -/
def isBareCsiChar (c : Char) : Bool :=
  c.isDigit || c = ';'

/-- ASCII letter. -/
def isAsciiLetter (c : Char) : Bool :=
  ('a' ≤ c && c ≤ 'z') || ('A' ≤ c && c ≤ 'Z')

theorem length_dropWhile_le (p : Char → Bool) (l : List Char) :
    (l.dropWhile p).length ≤ l.length := by
  induction l with
  | nil => simp
  | cons c cs ih =>
    simp only [List.dropWhile_cons]
    split
    · exact Nat.le_trans ih (Nat.le_succ _)
    · simp

/-- Attempt to match the ESC-prefixed alternative of the pattern at the
head of the list; on success return the remainder after the match.  This
alone is the pattern used by `classify_response` (response_classifier.py
line 31) and `parse_prompt` (prompt_parser.py line 18). -/
def matchEscAt : List Char → Option (List Char)
  | [] => none
  | c :: cs =>
    if c = '\x1b' then
      match cs with
      | [] => none
      | d :: cs' =>
        if isC1Final d then some cs'
        else if d = '[' then
          match (cs'.dropWhile isCsiParam).dropWhile isCsiInter with
          | [] => none
          | f :: rem => if isCsiFinal f then some rem else none
        else none
    else none

/-- Attempt to match the bare-CSI alternative at the head of the list.
The second branch of the alternation (digits then `m`) is subsumed by the
first (digits then a letter). -/
def matchBareCsiAt : List Char → Option (List Char)
  | [] => none
  | c :: cs =>
    if c = '[' then
      if cs.takeWhile isBareCsiChar = [] then none
      else
        match cs.dropWhile isBareCsiChar with
        | [] => none
        | f :: rem => if isAsciiLetter f then some rem else none
    else none

/-- Attempt to match the full `ANSI_ESCAPE` pattern of session_manager.py
at the head of the list.  The two alternatives require distinct head
characters, so trying them in order is exact. -/
def matchAnsiAt (l : List Char) : Option (List Char) :=
  match matchEscAt l with
  | some r => some r
  | none => matchBareCsiAt l

/-- Substitution of the empty string for a matcher `f`: delete every non-overlapping
leftmost match, scanning left to right.  `fuel` bounds the recursion; our
matchers always consume at least two characters, so `fuel = l.length`
never runs out before the list does. -/
def stripGo (f : List Char → Option (List Char)) : Nat → List Char → List Char
  | 0, l => l
  | _ + 1, [] => []
  | fuel + 1, c :: cs =>
    match f (c :: cs) with
    | some rest => stripGo f fuel rest
    | none => c :: stripGo f fuel cs

/-- The Terminal Sanitizer: `ANSI_ESCAPE.sub('', text)` with the full
pattern of session_manager.py (used on raw subprocess output at
session_manager.py line 136). -/
def ansiStrip (l : List Char) : List Char :=
  stripGo matchAnsiAt l.length l

/-- The narrower substitution used by the classifier and the prompt
extractor: only the ESC-prefixed alternatives. -/
def ansiStripBasic (l : List Char) : List Char :=
  stripGo matchEscAt l.length l

/-! ### Output Classifier (`response_classifier.py`)

The numbered-option pattern of `_has_numbered_options` is anchored at a
line start (`MULTILINE`), so a match can only begin at the start of the
text or right after a newline.  All of its character classes are disjoint
from what must follow them (markers/whitespace from digits, digits from
the period, whitespace from word characters), so maximal munch computes
the unique match at a position; the marker class and the whitespace run
after the period may cross newlines.  `findall` scans left to right,
skipping the consumed region after each match; a match ends inside the
final greedy word run, so scanning resumes mid-line and the following
line's anchor is never swallowed.  The scanners below walk the text one
character at a time, tracking whether the current position is a line
start, exactly like that scan. -/

/-- Leading marker characters accepted before the option number:
whitespace (including newline), `❯` and `│`. -/
def isMarkerChar (c : Char) : Bool :=
  isPySpace c || c = '❯' || c = '│'

/-- Try the classifier's numbered-option pattern at a line-start
position: leading markers, one or more digits, a period, one or more
whitespace characters, one or more word characters
(response_classifier.py lines 80-83).  On success return the remainder
after the greedy word run. -/
def matchNumberedAt (l : List Char) : Option (List Char) :=
  let t := l.dropWhile isMarkerChar
  if t.takeWhile isDigitChar = [] then none
  else
    match t.dropWhile isDigitChar with
    | '.' :: t3 =>
      if t3.takeWhile isPySpace = [] then none
      else
        let t4 := t3.dropWhile isPySpace
        if t4.takeWhile isWordChar = [] then none
        else some (t4.dropWhile isWordChar)
    | _ => none

/-- Count the matches of the numbered-option pattern, scanning left to
right; `atStart` tracks whether the position is a line start, `fuel`
bounds the walk (every step consumes at least one character). -/
def countNumberedGo : Nat → Bool → List Char → Nat
  | 0, _, _ => 0
  | _ + 1, _, [] => 0
  | fuel + 1, atStart, c :: cs =>
    if atStart then
      match matchNumberedAt (c :: cs) with
      | some rest => 1 + countNumberedGo fuel false rest
      | none => countNumberedGo fuel (c = '\n') cs
    else countNumberedGo fuel (c = '\n') cs

/-- The predicate `_has_numbered_options`: at least two matches of the numbered-option
pattern. -/
def has_numbered_options (cs : List Char) : Bool :=
  2 ≤ countNumberedGo cs.length true cs

/-- One word-bounded occurrence of `w` at the head of `cs`: `w` is a
prefix and the character following it (if any) is not a word character.
The words this is used with begin and end in word characters, so the
regex word boundaries reduce to the neighbour checks done here. -/
def wordAt (w cs : List Char) : Bool :=
  startsWith w cs &&
    (match cs.drop w.length with
     | [] => true
     | c :: _ => !isWordChar c)

/-- Scan for a word-bounded occurrence of `w`; `prevOk` records whether
the previous character (if any) was not a word character. -/
def searchWordAux (w : List Char) : Bool → List Char → Bool
  | prevOk, [] => prevOk && wordAt w []
  | prevOk, c :: rest =>
    (prevOk && wordAt w (c :: rest)) || searchWordAux w (!isWordChar c) rest

/-- Word-bounded regex search for `w` anywhere in `cs`. -/
def searchWord (w cs : List Char) : Bool :=
  searchWordAux w true cs

/-- A question-mark search anchored at the end of the string: Python
`re.search` with an end anchor matches when the text ends with a question
mark, possibly followed by one final newline. -/
def endsWithQuestionMark (cs : List Char) : Bool :=
  match cs.reverse with
  | '?' :: _ => true
  | '\n' :: '?' :: _ => true
  | _ => false

/-- The predicate `_is_confirmation` (response_classifier.py lines 95-112): a
word-bounded yes/no, y/n, confirm/proceed/continue, or a trailing question
mark, on the lowercased text, and length below 500. -/
def is_confirmation (cs : List Char) : Bool :=
  let lower := toLowerList cs
  let has_question :=
    searchWord ("yes".data) lower || searchWord ("no".data) lower ||
    searchWord ("y/n".data) lower ||
    searchWord ("confirm".data) lower || searchWord ("proceed".data) lower ||
    searchWord ("continue".data) lower ||
    endsWithQuestionMark lower
  has_question && cs.length < 500

/-- The error indicator table of `_is_error` (response_classifier.py
lines 117-121), in source order. -/
def errorIndicators : List (List Char) :=
  [("error".data), ("failed".data), ("exception".data), ("cannot".data),
   ("unable".data), ("invalid".data), ("not found".data), ("denied".data),
   ("permission".data), ("❌".data), ("⚠️".data), ("warning".data)]

/-- The predicate `_is_error`: any error indicator occurs in the lowercased text. -/
def is_error (cs : List Char) : Bool :=
  let lower := toLowerList cs
  errorIndicators.any (fun w => containsSub w lower)

/-- The working indicator table of `_is_working` (response_classifier.py
lines 130-135), in source order. -/
def workingIndicators : List (List Char) :=
  [("working on".data), ("processing".data), ("analyzing".data),
   ("searching".data), ("reading".data), ("writing".data),
   ("creating".data), ("updating".data), ("let me".data),
   ("i will".data), ("i am".data), ("i\x27m".data),
   ("⏳".data), ("🔄".data), ("⚙️".data)]

/-- The predicate `_is_working`: any working indicator occurs within the first 100
characters of the lowercased text. -/
def is_working (cs : List Char) : Bool :=
  let first100 := (toLowerList cs).take 100
  workingIndicators.any (fun w => containsSub w first100)

/-- The completion indicator table of `_is_complete`
(response_classifier.py lines 147-151), in source order. -/
def completionIndicators : List (List Char) :=
  [("done".data), ("completed".data), ("finished".data), ("success".data),
   ("created successfully".data), ("updated successfully".data),
   ("✅".data), ("✓".data), ("ready".data)]

/-- The predicate `_is_complete`: any completion indicator occurs in the lowercased
text. -/
def is_complete (cs : List Char) : Bool :=
  let lower := toLowerList cs
  completionIndicators.any (fun w => containsSub w lower)

/-- The response categories of `ResponseType`. -/
inductive ResponseType
  | prompt
  | confirmation
  | info
  | error
  | working
  | complete
deriving DecidableEq, Repr

/-- The classifier `classify_response` (response_classifier.py lines 20-71): strip ANSI
codes and surrounding whitespace, then apply the ordered heuristics. -/
def classify_response (text : List Char) : ResponseType :=
  let clean := stripChars (ansiStripBasic text)
  if clean = [] then .info
  else if has_numbered_options clean then .prompt
  else if is_confirmation clean then .confirmation
  else if is_error clean then .error
  else if is_working clean then .working
  else if is_complete clean then .complete
  else .info

/-- The predicate `requires_user_action` (response_classifier.py lines 158-168). -/
def requires_user_action (r : ResponseType) : Bool :=
  r = .prompt || r = .confirmation

/-! ### Prompt Extractor (`prompt_parser.py`)

The option pattern is the classifier's pattern with the option text
captured up to the line end: leading markers, a captured digit run, a
period, one or more whitespace characters, then a lazily captured group
followed by an optional trailing whitespace-and-`│` suffix and trailing
whitespace.  Because the group is lazy and the suffix can hold at most one
`│`, the captured text is the remainder of the line with the maximal such
suffix removed (keeping the group non-empty). -/

/-- Remove trailing whitespace. -/
def rstripChars (cs : List Char) : List Char :=
  (cs.reverse.dropWhile isPySpace).reverse

/-- The option text captured by the extractor pattern from `raw`, the
non-empty remainder of the group's line (from the first non-whitespace
character after the period up to the next newline), already stripped as
`parse_prompt` does before the length check.  The lazy group together
with the optional trailing whitespace-and-`│` suffix captures `raw` with
the maximal such suffix removed, keeping the group non-empty. -/
def capturedOptionText (raw : List Char) : List Char :=
  let s1 := rstripChars raw
  match s1.reverse with
  | '│' :: tail =>
    let s2 := (tail.dropWhile isPySpace).reverse
    if s2 = [] then s1 else s2
  | _ => s1

/-- Try the extractor's option pattern (prompt_parser.py line 31) at a
line-start position: on success return the captured number, the stripped
option text, and the remainder of the text after the group's line (the
trailing part of the regex only ever consumes further whitespace, which
cannot hold another line-anchored match, so resuming there is exact).
When the whitespace run after the period reaches the end of the text the
regex can still match by ceding one non-newline whitespace character to
the group, which strips to the empty text. -/
def matchParserOptionAt (l : List Char) :
    Option (List Char × List Char × List Char) :=
  let t := l.dropWhile isMarkerChar
  let ds := t.takeWhile isDigitChar
  if ds = [] then none
  else
    match t.dropWhile isDigitChar with
    | '.' :: t3 =>
      let wsRun := t3.takeWhile isPySpace
      if wsRun = [] then none
      else
        match t3.dropWhile isPySpace with
        | [] =>
          if 2 ≤ wsRun.length && (wsRun.drop 1).any (fun c => c ≠ '\n') then
            some (ds, [], [])
          else none
        | r :: rest' =>
          let raw := (r :: rest').takeWhile (fun c => c ≠ '\n')
          some (ds, capturedOptionText raw,
                (r :: rest').dropWhile (fun c => c ≠ '\n'))
    | _ => none

/-- One extracted option: the captured number, the stripped display text,
and the derived callback value (prompt_parser.py lines 58-62). -/
structure PromptOption where
  number : List Char
  text : List Char
  callback : List Char
deriving DecidableEq, Repr

/-- The option extraction loop (prompt_parser.py lines 49-62): scan for
matches of the option pattern left to right, dropping matches whose
stripped text is shorter than 2 characters.  `atStart` tracks whether the
position is a line start, `fuel` bounds the walk. -/
def scanOptionsGo : Nat → Bool → List Char → List PromptOption
  | 0, _, _ => []
  | _ + 1, _, [] => []
  | fuel + 1, atStart, c :: cs =>
    if atStart then
      match matchParserOptionAt (c :: cs) with
      | some (num, txt, rest) =>
        (if txt.length < 2 then [] else [⟨num, txt, ("opt_".data) ++ num⟩]) ++
          scanOptionsGo fuel false rest
      | none => scanOptionsGo fuel (c = '\n') cs
    else scanOptionsGo fuel (c = '\n') cs

/-- All options extracted from the sanitized text, in source order. -/
def extractOptions (clean : List Char) : List PromptOption :=
  scanOptionsGo clean.length true clean

/-- The indicator phrase table (prompt_parser.py lines 34-38), in source
order. -/
def promptIndicators : List (List Char) :=
  [("Yes, proceed".data), ("No, exit".data), ("Enter to confirm".data),
   ("Esc to exit".data), ("Do you trust".data), ("trust the files".data),
   ("security risks".data), ("Select an option".data), ("Choose:".data),
   ("continue?".data)]

/-- The fast-reject indicator gate (prompt_parser.py line 40):
case-insensitive containment of any indicator phrase. -/
def has_indicator (clean : List Char) : Bool :=
  promptIndicators.any (fun p => containsSub (toLowerList p) (toLowerList clean))

/-- The box-drawing characters removed from candidate question lines
(prompt_parser.py line 83). -/
def isBoxChar (c : Char) : Bool :=
  c = '│' || c = '├' || c = '─' || c = '╭' || c = '╮' ||
  c = '╰' || c = '╯' || c = '└' || c = '┘' || c = '┌' || c = '┐'

/-- The question-line option check (prompt_parser.py line 87): leading
whitespace or `❯` markers (no `│` in this class — box characters were
already removed), then digits and a period. -/
def questionOptionStart (cs : List Char) : Bool :=
  let t := cs.dropWhile (fun c => isPySpace c || c = '❯')
  let ds := t.takeWhile isDigitChar
  ds ≠ [] &&
    (match t.dropWhile isDigitChar with
     | '.' :: _ => true
     | _ => false)

/-- The question-line filter (prompt_parser.py lines 81-91): remove box
characters, strip, keep lines that are non-empty, do not look like an
option, do not contain the footer instructions, and are longer than 3
characters. -/
def questionLineEntry (line : List Char) : Option (List Char) :=
  let clean_line := stripChars (line.filter (fun c => !isBoxChar c))
  if clean_line ≠ [] &&
      !questionOptionStart clean_line &&
      !containsSub ("Enter to confirm".data) clean_line &&
      !containsSub ("Esc to exit".data) clean_line &&
      clean_line.length > 3 then
    some clean_line
  else none

/-- Join with newlines (Python `'\n'.join`). -/
def joinLines : List (List Char) → List Char
  | [] => []
  | [l] => l
  | l :: ls => l ++ '\n' :: joinLines ls

/-- The derived question (prompt_parser.py lines 77-98): the first six
surviving lines joined and stripped, with a generic fallback when shorter
than 10 characters. -/
def extractQuestion (clean : List Char) : List Char :=
  let qlines := (splitLines clean).filterMap questionLineEntry
  let question := stripChars (joinLines (qlines.take 6))
  if question.length < 10 then ("Please select an option:".data)
  else question

/-- The structured result of `parse_prompt` (question, options,
raw text). -/
structure ParsedPrompt where
  question : List Char
  options : List PromptOption
  raw_text : List Char
deriving DecidableEq, Repr

/-- The extractor `parse_prompt` (prompt_parser.py lines 9-104): sanitize, require an
indicator phrase, extract the options, fail when none survive, then
derive the question. -/
def parse_prompt (text : List Char) : Option ParsedPrompt :=
  let clean := ansiStripBasic text
  if !has_indicator clean then none
  else
    let opts := extractOptions clean
    if opts = [] then none
    else some ⟨extractQuestion clean, opts, text⟩

/-! ### The read/debounce loop (`ClaudeCodeProcess._read_output`,
session_manager.py lines 113-198)

One iteration of the loop is a read attempt followed by the flush
decision.  Time is modelled as an exact rational number of seconds
(`asyncio` loop time; the constant `0.5` is exactly representable, so the
comparison against it is faithfully rational).  The read data is the
already-decoded text of the bytes `os.read` returned (empty when nothing
was available or the read raised). -/

/-- The loop-local state of `_read_output`: the debounce text buffer, the
time of the most recent successful read, and the queue of flushed Output
Units (`self._output_queue`). -/
structure LoopState where
  buffer : List Char
  lastOutputTime : ℚ
  queue : List (List Char)
deriving DecidableEq, Repr

/-- True when the text has at least one non-whitespace character, i.e.
Python `text.strip()` is truthy. -/
def hasNonWs (cs : List Char) : Bool :=
  cs.any (fun c => !isPySpace c)

/-- The read attempt (lines 124-144): sanitize the data; only when the
sanitized text strips to something non-empty, append it (unstripped) to
the buffer and record `now` as the last successful output time. -/
def readPhase (st : LoopState) (data : List Char) (now : ℚ) : LoopState :=
  let clean := ansiStrip data
  if hasNonWs clean then
    { st with buffer := st.buffer ++ clean, lastOutputTime := now }
  else st

/-- The flush condition (line 152): the buffer is non-empty and either
strictly more than 0.5 seconds passed since the last successful read or
the buffer length strictly exceeds 4096. -/
def shouldFlush (buffer : List Char) (elapsed : ℚ) : Bool :=
  buffer ≠ [] && (elapsed > 1/2 || buffer.length > 4096)

/-- The flush step (lines 146-159): when the condition holds, enqueue the
buffer as one Output Unit and clear it. -/
def flushPhase (st : LoopState) (now : ℚ) : LoopState :=
  if shouldFlush st.buffer (now - st.lastOutputTime) then
    { st with buffer := [], queue := st.queue ++ [st.buffer] }
  else st

/-- One iteration of the read/debounce loop while the process is alive:
a read attempt at time `now` followed by the flush decision at the same
time. -/
def loopTick (st : LoopState) (data : List Char) (now : ℚ) : LoopState :=
  flushPhase (readPhase st data now) now

/-- The loop's exit path (lines 162-183): one last best-effort read
(appended under the same non-whitespace guard, without updating the
timestamp), then an unconditional flush of any non-empty buffer. -/
def exitPhase (st : LoopState) (data : List Char) : LoopState :=
  let clean := ansiStrip data
  let buf := if hasNonWs clean then st.buffer ++ clean else st.buffer
  if buf ≠ [] then { st with buffer := [], queue := st.queue ++ [buf] }
  else st

/-! ### Session Process and Session Registry
(`ClaudeCodeProcess` / `SessionManager`, session_manager.py)

The process handle is modelled by its observable state: whether
`self.process` is set and its `returncode`, plus the two pseudo-terminal
descriptor slots.  The event loop is single-threaded, so each operation
is a plain state transition. -/

/-- The `asyncio` subprocess handle: `returncode` is `none` while the
process is running. -/
structure ProcHandle where
  returncode : Option Int
deriving DecidableEq, Repr

/-- The runtime state of one `ClaudeCodeProcess`: the optional process
handle, the two pseudo-terminal descriptor slots, and whether the
background reading task is still active. -/
structure ClaudeCodeProcess where
  process : Option ProcHandle
  masterFd : Option Nat
  slaveFd : Option Nat
  readingTaskActive : Bool
deriving DecidableEq, Repr

/-- The predicate `is_alive` (session_manager.py lines 308-310): the process was
started and has not exited. -/
def is_alive (p : ClaudeCodeProcess) : Bool :=
  match p.process with
  | some h => h.returncode = none
  | none => false

/-- The last known exit code of the subprocess
(`process.process.returncode if process.process else None`). -/
def lastExitCode (p : ClaudeCodeProcess) : Option Int :=
  match p.process with
  | some h => h.returncode
  | none => none

/-- The operation `terminate` (session_manager.py lines 252-306): a no-op when the
process was never started; otherwise signal the child (any error, e.g.
signalling an already-dead process, is caught and logged), then in the
`finally` block cancel the reading task and close each descriptor slot
that is still set, setting it to `none`.  The reading task's own cleanup
closes the master slot under the same set-then-clear guard, so folding it
into this transition preserves the closed-descriptor accounting.  The
returned list holds the descriptors closed by this call. -/
def terminate (p : ClaudeCodeProcess) : ClaudeCodeProcess × List Nat :=
  match p.process with
  | none => (p, [])
  | some _ =>
    (({ p with masterFd := none, slaveFd := none,
                readingTaskActive := false } : ClaudeCodeProcess),
     p.masterFd.toList ++ p.slaveFd.toList)

/-- Lookup in the registry's live map (`self.sessions.get(session_id)`;
dictionary keys are unique, so association-list lookup is exact). -/
def lookupProc : List (String × ClaudeCodeProcess) → String → Option ClaudeCodeProcess
  | [], _ => none
  | (k, v) :: rest, id => if k = id then some v else lookupProc rest id

/-- The observable outcome of `send_message` (session_manager.py lines
461-517): a raised `RuntimeError` before any output (for a missing
session, a dead process, or a failed write), or the streamed list of
output chunks. -/
inductive SendOutcome
  | notFound
  | crashed (exitCode : Option Int)
  | sendFailed
  | stream (chunks : List (List Char))
deriving DecidableEq, Repr

/-- Whether `send_input` (lines 210-222) succeeds: it raises when the
process was never started or the master descriptor is gone. -/
def send_input_ok (p : ClaudeCodeProcess) : Bool :=
  p.process.isSome && p.masterFd.isSome

/-- The operation `send_message`: look up the live process (raising `notFound` when
absent), check `is_alive` (raising `crashed` with the last known exit
code when not), forward the input, then stream the units produced within
the 60 s window — `units` abstracts what `read_output` yields in that
window; when it is empty, yield the one synthetic informational chunk. -/
def send_message (sessions : List (String × ClaudeCodeProcess)) (id : String)
    (units : List (List Char)) : SendOutcome :=
  match lookupProc sessions id with
  | none => .notFound
  | some p =>
    if !is_alive p then .crashed (lastExitCode p)
    else if !send_input_ok p then .sendFailed
    else if units = [] then .stream [("✅ Command sent (no output received)".data)]
    else .stream units

/-- The session lifecycle states (`models/session.py`). -/
inductive SessionStatus
  | active
  | paused
  | crashed
  | terminated
deriving DecidableEq, Repr

/-- The registry state: the live map, each owner's selected session, and
the persisted records' status fields (the part of the database
`terminate_session` touches). -/
structure ManagerState where
  sessions : List (String × ClaudeCodeProcess)
  activeSessions : List (Nat × String)
  db : List (String × SessionStatus)
deriving DecidableEq, Repr

/-- The storage operation `DatabaseManager.update_session` restricted to the status field: set
the status on the matching record and report whether any row matched
(`rowcount > 0`); an unknown id updates nothing and returns `false`,
raising no error. -/
def db_update_status (db : List (String × SessionStatus)) (id : String)
    (st : SessionStatus) : List (String × SessionStatus) × Bool :=
  (db.map (fun kv => if kv.1 = id then (kv.1, st) else kv),
   db.any (fun kv => kv.1 = id))

/-- The operation `terminate_session` (session_manager.py lines 399-422): terminate and
drop the live process when present, update the persisted status to
TERMINATED (the result of the update is ignored), clear the id from every
owner's active selection, and return `True`. -/
def terminate_session (m : ManagerState) (id : String) : ManagerState × Bool :=
  let sessions' :=
    match lookupProc m.sessions id with
    | some _ => m.sessions.filter (fun kv => kv.1 ≠ id)
    | none => m.sessions
  let db' := (db_update_status m.db id .terminated).1
  let active' := m.activeSessions.filter (fun uv => uv.2 ≠ id)
  (⟨sessions', active', db'⟩, true)

/-! ## Theorems -/

theorem matchEscAt_eq_none {c : Char} (cs : List Char) (h : c ≠ '\x1b') :
    matchEscAt (c :: cs) = none := by
  simp [matchEscAt, h]

theorem matchBareCsiAt_eq_none {c : Char} (cs : List Char) (h : c ≠ '[') :
    matchBareCsiAt (c :: cs) = none := by
  simp [matchBareCsiAt, h]

theorem stripGo_matchAnsiAt_eq_self (fuel : Nat) (l : List Char)
    (h : ∀ c ∈ l, c ≠ '\x1b' ∧ c ≠ '[') :
    stripGo matchAnsiAt fuel l = l := by
  induction fuel generalizing l with
  | zero => rfl
  | succ fuel ih =>
    match l with
    | [] => rfl
    | c :: cs =>
      have hc := h c (List.mem_cons_self c cs)
      have hm : matchAnsiAt (c :: cs) = none := by
        unfold matchAnsiAt
        rw [matchEscAt_eq_none cs hc.1, matchBareCsiAt_eq_none cs hc.2]
      simp only [stripGo, hm]
      exact congrArg (c :: ·) (ih cs (fun d hd => h d (List.mem_cons_of_mem c hd)))

theorem ansiStrip_eq_self (l : List Char)
    (h1 : '\x1b' ∉ l) (h2 : '[' ∉ l) : ansiStrip l = l :=
  stripGo_matchAnsiAt_eq_self l.length l
    (fun c hc => ⟨fun he => h1 (he ▸ hc), fun he => h2 (he ▸ hc)⟩)

/-- C3 (counterexample): the Terminal Sanitizer is not idempotent.  On
`ESC ESC [ 3 1 m A` the first pass deletes the color sequence and thereby
splices the leading ESC against the `A`, which the second pass deletes as
a C1 escape. -/
theorem c3_counterexample :
    ansiStrip (("\x1b\x1b[31mA").data) = ("\x1b" ++ "A").data ∧
    ansiStrip (ansiStrip (("\x1b\x1b[31mA").data)) = [] ∧
    ansiStrip (ansiStrip (("\x1b\x1b[31mA").data)) ≠
      ansiStrip (("\x1b\x1b[31mA").data) := by
  refine ⟨by decide, by decide, by decide⟩

/-- C3 (amended): sanitization acts as the identity on text containing
neither the ESC character nor `[` — every match of the pattern starts
with one of the two — so it is idempotent whenever one pass removes every
ESC and `[`; in general a second pass can strip more. -/
theorem c3_sanitize_idempotent_of_clean (x : List Char)
    (h1 : '\x1b' ∉ ansiStrip x) (h2 : '[' ∉ ansiStrip x) :
    ansiStrip (ansiStrip x) = ansiStrip x :=
  ansiStrip_eq_self (ansiStrip x) h1 h2

/-- C3 (witness for the amended theorem): one color sequence strips to
plain text, on which sanitization is idempotent. -/
theorem c3_sanitize_idempotent_witness :
    ansiStrip (ansiStrip (("\x1b[31mhello").data)) =
      ansiStrip (("\x1b[31mhello").data) :=
  c3_sanitize_idempotent_of_clean (("\x1b[31mhello").data)
    (by decide) (by decide)

/-- C1 (counterexample): two bare numbered lines classify as PROMPT, but
the extractor's indicator-phrase gate rejects them, so `parse_prompt`
returns none. -/
theorem c1_counterexample :
    classify_response (("1. foo\n2. bar").data) = ResponseType.prompt ∧
    parse_prompt (("1. foo\n2. bar").data) = none := by
  refine ⟨by decide, by decide⟩

/-- C1 (amended): if `classify` returns PROMPT, the sanitized text
contains an indicator phrase, and at least two option-pattern matches
carry option text of length at least 2, then `extractPrompt` returns a
non-none result with at least 2 options.  (The extra hypotheses are
forced: the extractor's indicator gate and its minimum option-text length
can each reject a text the classifier flags as PROMPT.) -/
theorem c1_prompt_extract (text : List Char)
    (hcl : classify_response text = ResponseType.prompt)
    (hind : has_indicator (ansiStripBasic text) = true)
    (hopts : 2 ≤ (extractOptions (ansiStripBasic text)).length) :
    ∃ pp, parse_prompt text = some pp ∧ 2 ≤ pp.options.length := by
  have hne : extractOptions (ansiStripBasic text) ≠ [] := by
    intro h
    rw [h] at hopts
    simp at hopts
  unfold parse_prompt
  simp only [hind, Bool.not_true, Bool.false_eq_true, if_false, hne, ite_false]
  exact ⟨_, rfl, hopts⟩

/-- C1 (witness for the amended theorem). -/
theorem c1_prompt_extract_witness :
    ∃ pp,
      parse_prompt (("Select an option:\n1. Yes, proceed\n2. No, exit").data) =
        some pp ∧ 2 ≤ pp.options.length :=
  c1_prompt_extract (("Select an option:\n1. Yes, proceed\n2. No, exit").data)
    (by decide) (by decide) (by decide)

/-- C6 (counterexample): a text with indicator phrases and two options
carrying the same label `1` is not rejected — `parse_prompt` returns both
options, duplicates included, rather than none. -/
theorem c6_counterexample :
    (parse_prompt (("Select an option:\n1. Yes, proceed\n1. No, exit").data)).map
        (fun pp => pp.options.map PromptOption.number) =
      some [("1").data, ("1").data] ∧
    parse_prompt (("Select an option:\n1. Yes, proceed\n1. No, exit").data) ≠
      none := by
  refine ⟨by decide, by decide⟩

/-- C6 (amended): the extractor returns none exactly when the indicator
gate fails or no option survives; duplicate option labels are not treated
as an anomaly — the parsed options are returned as extracted, duplicates
included, and the none outcome is the non-fatal fall-back. -/
theorem c6_none_iff (text : List Char) :
    parse_prompt text = none ↔
      (has_indicator (ansiStripBasic text) = false ∨
       extractOptions (ansiStripBasic text) = []) := by
  unfold parse_prompt
  by_cases hind : has_indicator (ansiStripBasic text) = true
  · by_cases hopt : extractOptions (ansiStripBasic text) = []
    · simp [hind, hopt]
    · simp [hind, hopt]
  · simp only [Bool.not_eq_true] at hind
    simp [hind]

/-- C2 (counterexample): a 200-character buffer whose last successful
read was exactly 0.5 s ago does not flush on the poll tick — the code
compares with strict inequality, so the claimed "at least 500 ms"
behaviour fails at exactly 500 ms. -/
theorem shouldFlush_eq_true_iff (buffer : List Char) (elapsed : ℚ) :
    shouldFlush buffer elapsed = true ↔
      buffer ≠ [] ∧ (elapsed > 1/2 ∨ buffer.length > 4096) := by
  unfold shouldFlush
  simp only [Bool.and_eq_true, Bool.or_eq_true, decide_eq_true_eq, ne_eq]

theorem c2_counterexample :
    loopTick ⟨List.replicate 200 'a', 0, []⟩ [] (1/2) =
      ⟨List.replicate 200 'a', 0, []⟩ := by
  have h : shouldFlush (List.replicate 200 'a') ((1/2 : ℚ) - 0) = false := by
    rw [Bool.eq_false_iff]
    intro hc
    rcases (shouldFlush_eq_true_iff _ _).mp hc with ⟨-, h2 | h3⟩
    · norm_num at h2
    · rw [List.length_replicate] at h3
      norm_num at h3
  show flushPhase ⟨List.replicate 200 'a', 0, []⟩ (1/2) =
    ⟨List.replicate 200 'a', 0, []⟩
  unfold flushPhase
  rw [h]
  simp

/-- C2 (amended): on a poll tick with no new data, the buffer is flushed
as one Output Unit exactly when it is non-empty and either strictly more
than 500 ms have elapsed since the last successful read or the buffer
exceeds 4096 characters; in particular the 200-byte buffer flushes when
the last read is strictly older than 500 ms and stays buffered at exactly
500 ms. -/
theorem c2_flush_iff (buf : List Char) (t now : ℚ) (q : List (List Char)) :
    (loopTick ⟨buf, t, q⟩ [] now).queue = q ++ [buf] ↔
      (buf ≠ [] ∧ (now - t > 1/2 ∨ buf.length > 4096)) := by
  have hread : readPhase ⟨buf, t, q⟩ [] now = ⟨buf, t, q⟩ := rfl
  unfold loopTick
  rw [hread]
  unfold flushPhase
  by_cases hcond : shouldFlush buf (now - t) = true
  · rw [if_pos hcond]
    rw [shouldFlush_eq_true_iff] at hcond
    exact iff_of_true rfl ⟨hcond.1, hcond.2⟩
  · rw [if_neg hcond]
    apply iff_of_false
    · simp
    · rintro ⟨h1, h2⟩
      exact hcond ((shouldFlush_eq_true_iff _ _).mpr ⟨h1, h2⟩)

/-- C4: when the identifier has no live process in the registry's map, or
the process it has has exited, `send_message` raises a typed failure
before consuming or yielding anything: it never returns a stream, the
absent case raises the not-found error, and the exited case raises the
crash error carrying the last known exit code. -/
theorem c4_send_message_fails_fast (sessions : List (String × ClaudeCodeProcess))
    (id : String) (units : List (List Char))
    (h : lookupProc sessions id = none ∨
         ∃ p, lookupProc sessions id = some p ∧ is_alive p = false) :
    (∀ chunks, send_message sessions id units ≠ SendOutcome.stream chunks) ∧
    (lookupProc sessions id = none →
      send_message sessions id units = SendOutcome.notFound) ∧
    (∀ p, lookupProc sessions id = some p →
      send_message sessions id units = SendOutcome.crashed (lastExitCode p)) := by
  rcases h with h | ⟨p, hp, halive⟩
  · refine ⟨?_, fun _ => ?_, fun p hp => ?_⟩
    · intro chunks
      unfold send_message
      rw [h]
      intro hcontra
      cases hcontra
    · unfold send_message
      rw [h]
    · rw [h] at hp
      cases hp
  · have hmsg : send_message sessions id units = SendOutcome.crashed (lastExitCode p) := by
      unfold send_message
      rw [hp]
      simp [halive]
    refine ⟨?_, fun habs => ?_, fun p' hp' => ?_⟩
    · intro chunks
      rw [hmsg]
      intro hcontra
      cases hcontra
    · rw [habs] at hp
      cases hp
    · rw [hp'] at hp
      cases hp
      exact hmsg

/-- C4 (witness): a registry holding one crashed process. -/
theorem c4_witness :
    send_message
      [(("s1"), (⟨some ⟨some 9⟩, none, none, false⟩ : ClaudeCodeProcess))]
      ("s1") [] = SendOutcome.crashed (some 9) := by
  have hlk : lookupProc
      [(("s1"), (⟨some ⟨some 9⟩, none, none, false⟩ : ClaudeCodeProcess))]
      ("s1") = some (⟨some ⟨some 9⟩, none, none, false⟩ : ClaudeCodeProcess) := by
    decide
  have hal : is_alive (⟨some ⟨some 9⟩, none, none, false⟩ : ClaudeCodeProcess) = false := by
    decide
  have h := c4_send_message_fails_fast
    [(("s1"), (⟨some ⟨some 9⟩, none, none, false⟩ : ClaudeCodeProcess))]
    ("s1") []
    (Or.inr ⟨_, hlk, hal⟩)
  exact h.2.2 _ hlk

/-- C5: calling `terminate` a second time is a no-op that closes no
descriptor; together with the first call's closed list, in which the
master and subordinate descriptors appear at most once each, the
descriptors are released exactly once across both calls and no error is
produced (the transition is total: every OS error is swallowed). -/
theorem c5_terminate_idempotent (p : ClaudeCodeProcess)
    (h : p.masterFd = none ∨ p.masterFd ≠ p.slaveFd) :
    terminate (terminate p).1 = ((terminate p).1, []) ∧
    ((terminate p).2 ++ (terminate (terminate p).1).2).Nodup := by
  rcases p with ⟨proc, mfd, sfd, task⟩
  cases proc with
  | none =>
    refine ⟨rfl, ?_⟩
    show (([] : List Nat) ++ []).Nodup
    simp
  | some ph =>
    refine ⟨rfl, ?_⟩
    show ((Option.toList mfd ++ Option.toList sfd) ++ []).Nodup
    rcases mfd with - | m
    · cases sfd <;> simp
    · rcases sfd with - | s
      · simp
      · have hms : m ≠ s := by
          rcases h with h | h
          · cases h
          · intro he
            exact h (by rw [he])
        simp [hms]

/-- C5 (witness): a started process with distinct descriptors. -/
theorem c5_witness :
    terminate (terminate (⟨some ⟨none⟩, some 3, some 4, true⟩ : ClaudeCodeProcess)).1 =
      ((terminate (⟨some ⟨none⟩, some 3, some 4, true⟩ : ClaudeCodeProcess)).1, []) ∧
    ((terminate (⟨some ⟨none⟩, some 3, some 4, true⟩ : ClaudeCodeProcess)).2 ++
      (terminate (terminate (⟨some ⟨none⟩, some 3, some 4, true⟩ : ClaudeCodeProcess)).1).2).Nodup :=
  c5_terminate_idempotent (⟨some ⟨none⟩, some 3, some 4, true⟩ : ClaudeCodeProcess)
    (Or.inr (by decide))

/-- C9: `terminate_session` returns `True` for every identifier —
including ids with no record and no live process — and still performs the
status update and clears the id from every owner's active selection; the
model is a total function, so no exception is raised. -/
theorem c9_terminate_session_total (m : ManagerState) (id : String) :
    (terminate_session m id).2 = true ∧
    (terminate_session m id).1.db =
      (db_update_status m.db id SessionStatus.terminated).1 ∧
    ∀ uv ∈ (terminate_session m id).1.activeSessions, uv.2 ≠ id := by
  refine ⟨rfl, rfl, ?_⟩
  intro uv huv
  have := List.of_mem_filter huv
  simpa using this

/-- The invariant of the read/debounce loop: every enqueued Output Unit
has a non-whitespace character, and so does the buffer whenever it is
non-empty. -/
def goodState (st : LoopState) : Prop :=
  (∀ u ∈ st.queue, hasNonWs u = true) ∧
  (st.buffer ≠ [] → hasNonWs st.buffer = true)

theorem hasNonWs_append (a b : List Char) :
    hasNonWs (a ++ b) = (hasNonWs a || hasNonWs b) := by
  unfold hasNonWs
  exact List.any_append

theorem readPhase_preserves (st : LoopState) (data : List Char) (now : ℚ)
    (h : goodState st) : goodState (readPhase st data now) := by
  unfold readPhase
  by_cases hw : hasNonWs (ansiStrip data) = true
  · rw [if_pos hw]
    refine ⟨h.1, fun _ => ?_⟩
    rw [hasNonWs_append, hw, Bool.or_true]
  · rw [if_neg hw]
    exact h

theorem flushPhase_preserves (st : LoopState) (now : ℚ)
    (h : goodState st) : goodState (flushPhase st now) := by
  unfold flushPhase
  by_cases hc : shouldFlush st.buffer (now - st.lastOutputTime) = true
  · rw [if_pos hc]
    have hbuf : st.buffer ≠ [] := ((shouldFlush_eq_true_iff _ _).mp hc).1
    refine ⟨?_, fun hcontra => absurd rfl hcontra⟩
    intro u hu
    rcases List.mem_append.mp hu with hu | hu
    · exact h.1 u hu
    · rw [List.mem_singleton.mp hu]
      exact h.2 hbuf
  · rw [if_neg hc]
    exact h

/-- C10: every Output Unit the loop enqueues contains a non-whitespace
character — the invariant is preserved by a live-loop tick and by the
exit path — and a read whose sanitized text is empty or whitespace-only
leaves the state untouched: nothing is appended and the last-read
timestamp is not updated, so such a read can neither produce nor delay a
flush. -/
theorem c10_units_have_content (st : LoopState) (data : List Char) (now : ℚ)
    (h : goodState st) :
    goodState (loopTick st data now) ∧
    goodState (exitPhase st data) ∧
    (hasNonWs (ansiStrip data) = false → readPhase st data now = st) := by
  refine ⟨flushPhase_preserves _ _ (readPhase_preserves _ _ _ h), ?_, ?_⟩
  · unfold exitPhase
    dsimp only
    by_cases hw : hasNonWs (ansiStrip data) = true
    · rw [if_pos hw]
      by_cases hb : st.buffer ++ ansiStrip data ≠ []
      · rw [if_pos hb]
        refine ⟨?_, fun hcontra => absurd rfl hcontra⟩
        intro u hu
        rcases List.mem_append.mp hu with hu | hu
        · exact h.1 u hu
        · rw [List.mem_singleton.mp hu, hasNonWs_append, hw, Bool.or_true]
      · rw [if_neg hb]
        exact h
    · rw [if_neg hw]
      by_cases hb : st.buffer ≠ []
      · rw [if_pos hb]
        refine ⟨?_, fun hcontra => absurd rfl hcontra⟩
        intro u hu
        rcases List.mem_append.mp hu with hu | hu
        · exact h.1 u hu
        · rw [List.mem_singleton.mp hu]
          exact h.2 hb
      · rw [if_neg hb]
        exact h
  · intro hw
    unfold readPhase
    dsimp only
    rw [hw]
    simp

/-- C10 (witness): starting from the empty state, a pure
clear-screen escape sequence is discarded. -/
theorem c10_witness :
    goodState (loopTick ⟨[], 0, []⟩ (("\x1b[2J").data) 1) ∧
    goodState (exitPhase ⟨[], 0, []⟩ (("\x1b[2J").data)) ∧
    (hasNonWs (ansiStrip (("\x1b[2J").data)) = false →
      readPhase ⟨[], 0, []⟩ (("\x1b[2J").data) 1 = ⟨[], 0, []⟩) :=
  c10_units_have_content ⟨[], 0, []⟩ (("\x1b[2J").data) 1
    (by refine ⟨fun u hu => absurd hu (List.not_mem_nil u), fun h => absurd rfl h⟩)

/-- The error keyword/symbol set exactly as the specification sentence of
the claim enumerates it: the nine keywords and the designated symbol
markers, without `warning`.  This definition follows the spec's words and
exists to be compared with the source's `errorIndicators`. -/
def claimedErrorIndicators : List (List Char) :=
  [("error".data), ("failed".data), ("exception".data), ("cannot".data),
   ("unable".data), ("invalid".data), ("not found".data), ("denied".data),
   ("permission".data), ("\u274c".data), ("\u26a0\ufe0f".data)]

/-- The claim's error test: some enumerated keyword or symbol appears
anywhere in the lowercased text. -/
def claimedErrorMatch (cs : List Char) : Bool :=
  claimedErrorIndicators.any (fun w => containsSub w (toLowerList cs))

/-- C7 (counterexample): the bare text `warning` classifies as ERROR —
no higher-priority rule fires on it — yet it contains none of the
keywords or symbol markers the claim enumerates. -/
theorem c7_counterexample :
    classify_response (("warning").data) = ResponseType.error ∧
    has_numbered_options (stripChars (ansiStripBasic (("warning").data))) = false ∧
    is_confirmation (stripChars (ansiStripBasic (("warning").data))) = false ∧
    claimedErrorMatch (stripChars (ansiStripBasic (("warning").data))) = false := by
  refine ⟨by decide, by decide, by decide, by decide⟩

theorem errorIndicators_eq :
    errorIndicators = claimedErrorIndicators ++ [("warning".data)] := rfl

/-- C7 (amended): on sanitized text on which neither the PROMPT rule nor
the CONFIRMATION rule fires, `classify` returns ERROR if and only if one
of the claim's keywords/symbols or the additional keyword `warning`
appears anywhere in the (lowercased) text. -/
theorem c7_error_iff (text : List Char)
    (h1 : has_numbered_options (stripChars (ansiStripBasic text)) = false)
    (h2 : is_confirmation (stripChars (ansiStripBasic text)) = false) :
    classify_response text = ResponseType.error ↔
      (claimedErrorMatch (stripChars (ansiStripBasic text)) ||
       containsSub (("warning").data)
         (toLowerList (stripChars (ansiStripBasic text)))) = true := by
  have hsplit : is_error (stripChars (ansiStripBasic text)) =
      (claimedErrorMatch (stripChars (ansiStripBasic text)) ||
       containsSub (("warning").data)
         (toLowerList (stripChars (ansiStripBasic text)))) := by
    unfold is_error claimedErrorMatch
    rw [errorIndicators_eq, List.any_append]
    simp
  unfold classify_response
  by_cases hnil : stripChars (ansiStripBasic text) = []
  · rw [if_pos hnil]
    rw [hnil] at hsplit ⊢
    constructor
    · intro hcontra
      cases hcontra
    · intro hcontra
      rw [← hsplit] at hcontra
      cases hcontra
  · rw [if_neg hnil, if_neg (by rw [h1]; exact Bool.false_ne_true),
        if_neg (by rw [h2]; exact Bool.false_ne_true)]
    by_cases herr : is_error (stripChars (ansiStripBasic text)) = true
    · rw [if_pos herr, ← hsplit]
      exact iff_of_true rfl herr
    · rw [if_neg herr, ← hsplit]
      apply iff_of_false
      · by_cases hw : is_working (stripChars (ansiStripBasic text)) = true
        · rw [if_pos hw]
          intro hcontra
          cases hcontra
        · rw [if_neg hw]
          by_cases hc : is_complete (stripChars (ansiStripBasic text)) = true
          · rw [if_pos hc]
            intro hcontra
            cases hcontra
          · rw [if_neg hc]
            intro hcontra
            cases hcontra
      · exact herr

/-- C7 (witness for the amended theorem). -/
theorem c7_witness :
    classify_response (("Error: file not found").data) = ResponseType.error ↔
      (claimedErrorMatch (stripChars (ansiStripBasic (("Error: file not found").data))) ||
       containsSub (("warning").data)
         (toLowerList (stripChars (ansiStripBasic (("Error: file not found").data))))) = true :=
  c7_error_iff (("Error: file not found").data) (by decide) (by decide)

/-- The trust-folder prompt: the exact text of the repository's own test
input `test_trust_prompt` (response_classifier.py lines 227-243). -/
def trustPromptText : String :=
  "\n╭──────────────────────────────────────────────────────────────────────────────╮\n│ Do you trust the files in this folder?                                       │\n│                                                                              │\n│ /workspace/8afdab13-0fce-4365-ace8-226127b13f9a                              │\n│                                                                              │\n│ Claude Code may read, write, or execute files contained in this directory.   │\n│ This can pose security risks, so only use files from trusted sources.        │\n│                                                                              │\n│ Learn more ( https://docs.claude.com/s/claude-code-security )                │\n│                                                                              │\n│ ❯ 1. Yes, proceed                                                            │\n│   2. No, exit                                                                │\n│                                                                              │\n╰─────────────────────────────────────────────────────────────────────────────╯\n   Enter to confirm · Esc to exit\n    "

set_option maxRecDepth 40000

/-- C8: on the trust-folder prompt, `classify` returns PROMPT and
`extractPrompt` returns exactly the options 1 `Yes, proceed` and 2
`No, exit` in that order, with a question that contains `trust` and is
not the generic fallback. -/
theorem c8_trust_prompt :
    classify_response trustPromptText.data = ResponseType.prompt ∧
    (parse_prompt trustPromptText.data).map ParsedPrompt.options =
      some [⟨("1").data, ("Yes, proceed").data, ("opt_1").data⟩,
            ⟨("2").data, ("No, exit").data, ("opt_2").data⟩] ∧
    (parse_prompt trustPromptText.data).map
        (fun pp => containsSub (("trust").data) pp.question) = some true ∧
    (parse_prompt trustPromptText.data).map ParsedPrompt.question ≠
      some (("Please select an option:").data) := by
  refine ⟨by decide, by decide, by decide, by decide⟩

end Omnik
